import Mathlib

/-!
Verification of the banking-service ledger core (src/banking-service/crud.py,
src/banking-service/models.py).

Modelling choices:
* Monetary amounts are Python `Decimal` values of scale 2 (the column is
  `Numeric(precision=10, scale=2)`); we embed them as integers counting
  cents (`Int`), which is exact for scale-2 fixed-point arithmetic.
* The persistent store is a list of `BankAccount` rows; `SELECT ... WHERE
  user_id == uid` with `scalar_one_or_none` is `List.find?` (`user_id` is
  unique, so the first match is the only match), and the ORM
  mutate-then-commit of the fetched row is `updateBalance`.
* Timestamps and the async/session plumbing are not part of the claims and
  are elided; non-deterministic generation (uuid4) is passed in as an
  argument.
* `str()` of a scale-2 `Decimal` (as interpolated into the f-string
  messages) is `formatCents`.
-/

namespace Banking

/-- Embedding of the `BankAccount` ORM model (models.py): `id`, `user_id`,
`account_number`, `currency` are strings, `balance` is a scale-2 decimal
(held as cents), `is_active` a boolean. Timestamps elided. -/
structure BankAccount where
  id : String
  user_id : String
  account_number : String
  balance : Int
  currency : String
  is_active : Bool
deriving DecidableEq, Repr

/-- Embedding of the pydantic `BankAccountCreate` model with its field
defaults: `initial_balance = Decimal("1000.00")`, `currency = "USD"`. -/
structure BankAccountCreate where
  user_id : String
  initial_balance : Int := 100000
  currency : String := "USD"
deriving DecidableEq, Repr

/-- `str()` of a non-negative scale-2 `Decimal`, in cents:
`str(Decimal("700.00")) = "700.00"`. -/
def formatCentsNat (n : Nat) : String :=
  toString (n / 100) ++ "." ++ (if n % 100 < 10 then "0" else "") ++ toString (n % 100)

/-- `str()` of a scale-2 `Decimal`, in cents (sign handled). -/
def formatCents (c : Int) : String :=
  if c < 0 then "-" ++ formatCentsNat c.natAbs else formatCentsNat c.natAbs

/-- `get_account_by_user_id` (crud.py): `SELECT` the row whose `user_id`
matches, `scalar_one_or_none` — `some` row or `none`. Pure read. -/
def get_account_by_user_id (db : List BankAccount) (uid : String) : Option BankAccount :=
  db.find? (fun a => a.user_id == uid)

/-- `get_account_by_id` (crud.py): lookup by primary key `id`. -/
def get_account_by_id (db : List BankAccount) (accountId : String) : Option BankAccount :=
  db.find? (fun a => a.id == accountId)

/-- The ORM commit of a mutated `balance` on the row keyed by `user_id`:
replace the balance of that row, leaving every other row unchanged. -/
def updateBalance (db : List BankAccount) (uid : String) (newBal : Int) : List BankAccount :=
  db.map (fun a => if a.user_id == uid then { a with balance := newBal } else a)

/-- `create_account` (crud.py): the generated uuid (`account_id`) and the
random alphanumeric suffix of the account number are passed in;
`account_number = "ACC" + suffix`; the new row has the requested initial
balance and currency and `is_active = True`; it is added to the store and
the refreshed row is returned. -/
def create_account (db : List BankAccount) (accountId : String) (acctSuffix : String)
    (account_data : BankAccountCreate) : BankAccount × List BankAccount :=
  let account : BankAccount :=
    { id := accountId
      user_id := account_data.user_id
      account_number := "ACC" ++ acctSuffix
      balance := account_data.initial_balance
      currency := account_data.currency
      is_active := true }
  (account, db ++ [account])

/-- `check_balance` (crud.py): not-found, inactive, insufficiency checks in
that order, each short-circuiting with its message. -/
def check_balance (db : List BankAccount) (uid : String) (amount : Int) : Bool × String :=
  match get_account_by_user_id db uid with
  | none => (false, "Account not found")
  | some account =>
    if !account.is_active then
      (false, "Account is inactive")
    else if account.balance < amount then
      (false, "Insufficient balance. Available: " ++ formatCents account.balance
        ++ ", Required: " ++ formatCents amount)
    else
      (true, "Sufficient balance")

/-- `debit_account` (crud.py): returns `(success, message, balance)` and the
store after the call. Failure paths return the store unchanged, with
balance `0` (not found) or the current balance (inactive / insufficient);
on success `balance -= amount` is committed and the new balance returned. -/
def debit_account (db : List BankAccount) (uid : String) (amount : Int) :
    (Bool × String × Int) × List BankAccount :=
  match get_account_by_user_id db uid with
  | none => ((false, "Account not found", 0), db)
  | some account =>
    if !account.is_active then
      ((false, "Account is inactive", account.balance), db)
    else if account.balance < amount then
      ((false, "Insufficient balance. Available: " ++ formatCents account.balance
          ++ ", Required: " ++ formatCents amount, account.balance), db)
    else
      ((true, "Transaction successful", account.balance - amount),
        updateBalance db uid (account.balance - amount))

/-- `credit_account` (crud.py): like debit but with no sufficiency (or sign)
check: `balance += amount` is committed for any amount once the account is
found and active. -/
def credit_account (db : List BankAccount) (uid : String) (amount : Int) :
    (Bool × String × Int) × List BankAccount :=
  match get_account_by_user_id db uid with
  | none => ((false, "Account not found", 0), db)
  | some account =>
    if !account.is_active then
      ((false, "Account is inactive", account.balance), db)
    else
      ((true, "Transaction successful", account.balance + amount),
        updateBalance db uid (account.balance + amount))

/-- Balance of the account bound to `uid` in a store, if any. -/
def balanceOf (db : List BankAccount) (uid : String) : Option Int :=
  (get_account_by_user_id db uid).map (fun a => a.balance)

/-- `get_account_by_user_id` as a request-scoped unit of work: the result
together with the store after the call (a `SELECT` issues no write). -/
def get_account_op (db : List BankAccount) (uid : String) :
    Option BankAccount × List BankAccount :=
  (get_account_by_user_id db uid, db)

/-- A balance-mutating call against one account: `debit_account` or
`credit_account` with the given amount. -/
inductive Op where
  | debit (amount : Int)
  | credit (amount : Int)
deriving DecidableEq, Repr

/-- The store after one debit/credit call on the account of `uid`. -/
def applyOp (db : List BankAccount) (uid : String) : Op → List BankAccount
  | Op.debit amount => (debit_account db uid amount).2
  | Op.credit amount => (credit_account db uid amount).2

/-- Run a finite sequence of debit/credit calls, left to right. -/
def runOps (db : List BankAccount) (uid : String) : List Op → List BankAccount
  | [] => db
  | op :: rest => runOps (applyOp db uid op) uid rest

/-- Amount discipline under which the non-negativity invariant holds:
debits of any amount, credits of non-negative amounts only. -/
def opOK : Op → Bool
  | Op.debit _ => true
  | Op.credit amount => decide (0 ≤ amount)

/-- Phase 1 of `debit_account` as the async runtime executes it: the awaited
read (`get_account_by_user_id`) plus the synchronous checks and arithmetic
that follow it, up to (not including) the awaited commit. Returns the new
balance this call will commit, or `none` on a failure path. -/
def debitPhase1 (db : List BankAccount) (uid : String) (amount : Int) : Option Int :=
  match get_account_by_user_id db uid with
  | none => none
  | some account =>
    if !account.is_active then none
    else if account.balance < amount then none
    else some (account.balance - amount)

/-- Phase 2 of `debit_account`: the awaited commit of the balance computed in
phase 1 — no re-read and no re-check happens at commit time. -/
def debitCommit (db : List BankAccount) (uid : String) : Option Int → List BankAccount
  | none => db
  | some nb => updateBalance db uid nb

/-- The interleaving read₁ · read₂ · commit₁ · commit₂ of two concurrent
`debit_account` calls on the same account: both phase-1 reads see the
initial store (nothing in crud.py serializes them). Returns the two
success flags and the final store. -/
def twoDebitsInterleaved (db : List BankAccount) (uid : String) (amt1 amt2 : Int) :
    Bool × Bool × List BankAccount :=
  let p1 := debitPhase1 db uid amt1
  let p2 := debitPhase1 db uid amt2
  let db1 := debitCommit db uid p1
  let db2 := debitCommit db1 uid p2
  (p1.isSome, p2.isSome, db2)

/-! Concrete stores used by the witnesses and counterexamples. -/

/-- An active account for user `u1` holding `1000.00`. -/
def acct1 : BankAccount :=
  { id := "a1", user_id := "u1", account_number := "ACC1A2B3C4D",
    balance := 100000, currency := "USD", is_active := true }

/-- A one-account store: `u1` with balance `1000.00`. -/
def store1 : List BankAccount := [acct1]

/-- `u1` with balance `700.00`. -/
def acct700 : BankAccount := { acct1 with balance := 70000 }

/-- A one-account store: `u1` with balance `700.00`. -/
def store700 : List BankAccount := [acct700]

/-- An inactive account for user `u2` holding `50.00`. -/
def acctInactive : BankAccount :=
  { id := "a2", user_id := "u2", account_number := "ACC2B3C4D5E",
    balance := 5000, currency := "USD", is_active := false }

/-- A one-account store: the inactive account of `u2`. -/
def store2 : List BankAccount := [acctInactive]

/-- An active account for user `u7` holding `100.00` (concurrency scenario). -/
def acct100 : BankAccount :=
  { id := "a7", user_id := "u7", account_number := "ACC7F8G9H0J",
    balance := 10000, currency := "USD", is_active := true }

/-- A one-account store: `u7` with balance `100.00`. -/
def store100 : List BankAccount := [acct100]

/-- Scenario step 0: create the `u1` account with initial balance `1000.00`
(generated id and account-number suffix fixed). -/
def scenarioCreated : BankAccount × List BankAccount :=
  create_account [] "gid-1" "X1Y2Z3A4B5" { user_id := "u1", initial_balance := 100000 }

/-- Scenario step 1: debit `300.00`. -/
def scenarioR1 : (Bool × String × Int) × List BankAccount :=
  debit_account scenarioCreated.2 "u1" 30000

/-- Scenario step 2: debit `800.00`. -/
def scenarioR2 : (Bool × String × Int) × List BankAccount :=
  debit_account scenarioR1.2 "u1" 80000

/-- Scenario step 3: credit `50.00`. -/
def scenarioR3 : (Bool × String × Int) × List BankAccount :=
  credit_account scenarioR2.2 "u1" 5000

/-! Helper lemmas. -/

/-- Looking up `uid` after committing a new balance for `uid` returns the
looked-up row with just its balance replaced. -/
theorem get_updateBalance (db : List BankAccount) (uid : String) (nb : Int) :
    get_account_by_user_id (updateBalance db uid nb) uid
      = (get_account_by_user_id db uid).map (fun a => { a with balance := nb }) := by
  unfold get_account_by_user_id updateBalance
  rw [List.find?_map]
  have hp : ((fun a : BankAccount => a.user_id == uid) ∘
        (fun a => if (a.user_id == uid) = true then { a with balance := nb } else a))
      = (fun a : BankAccount => a.user_id == uid) := by
    funext x
    simp only [Function.comp_apply]
    by_cases h : (x.user_id == uid) = true
    · rw [if_pos h]
    · rw [if_neg h]
  rw [hp]
  cases hfind : List.find? (fun a : BankAccount => a.user_id == uid) db with
  | none => rfl
  | some a =>
    have ha := List.find?_some hfind
    have ha2 : (a.user_id == uid) = true := ha
    rw [Option.map_some', Option.map_some', if_pos ha2]

/-- One debit/credit call preserves non-negativity of the account balance,
provided a credited amount is non-negative. -/
theorem applyOp_nonneg (db : List BankAccount) (uid : String)
    (h : ∀ b ∈ balanceOf db uid, 0 ≤ b) (op : Op) (hop : opOK op = true) :
    ∀ b ∈ balanceOf (applyOp db uid op) uid, 0 ≤ b := by
  cases op with
  | debit amount =>
    cases hga : get_account_by_user_id db uid with
    | none => simpa [applyOp, debit_account, hga] using h
    | some a =>
      cases hact : a.is_active with
      | false => simpa [applyOp, debit_account, hga, hact] using h
      | true =>
        by_cases hlt : a.balance < amount
        · simpa [applyOp, debit_account, hga, hact, hlt] using h
        · intro b hb
          have hbeq : balanceOf (applyOp db uid (Op.debit amount)) uid
              = some (a.balance - amount) := by
            simp [applyOp, debit_account, hga, hact, hlt, balanceOf, get_updateBalance]
          rw [hbeq] at hb
          have hb2 : a.balance - amount = b := by simpa using hb
          omega
  | credit amount =>
    have hamt : 0 ≤ amount := by simpa [opOK] using hop
    cases hga : get_account_by_user_id db uid with
    | none => simpa [applyOp, credit_account, hga] using h
    | some a =>
      cases hact : a.is_active with
      | false => simpa [applyOp, credit_account, hga, hact] using h
      | true =>
        intro b hb
        have h0 : 0 ≤ a.balance := h a.balance (by simp [balanceOf, hga])
        have hbeq : balanceOf (applyOp db uid (Op.credit amount)) uid
            = some (a.balance + amount) := by
          simp [applyOp, credit_account, hga, hact, balanceOf, get_updateBalance]
        rw [hbeq] at hb
        have hb2 : a.balance + amount = b := by simpa using hb
        omega

/-- Running any sequence of debit/credit calls preserves non-negativity of
the account balance, provided every credited amount is non-negative. -/
theorem runOps_nonneg (uid : String) (ops : List Op) :
    ∀ db : List BankAccount, (∀ b ∈ balanceOf db uid, 0 ≤ b) →
      (∀ op ∈ ops, opOK op = true) →
      ∀ b ∈ balanceOf (runOps db uid ops) uid, 0 ≤ b := by
  induction ops with
  | nil => intro db h _; simpa [runOps] using h
  | cons op rest ih =>
    intro db h hops
    have h1 := applyOp_nonneg db uid h op (hops op (by simp))
    simpa [runOps] using ih (applyOp db uid op) h1 (fun o ho => hops o (by simp [ho]))

/-! Claim theorems. -/

/-- C2. `debit_account` decreases the stored balance by `amount` exactly when
the account exists, is active and holds at least `amount`; on success it
returns `(true, "Transaction successful", old_balance - amount)` and commits
the decreased balance; every failure leaves the store unchanged. -/
theorem debit_account_spec (db : List BankAccount) (uid : String) (amount : Int) :
    ((debit_account db uid amount).1.1 = true ↔
      ∃ a, get_account_by_user_id db uid = some a ∧ a.is_active = true ∧ amount ≤ a.balance)
    ∧ (∀ a, get_account_by_user_id db uid = some a → a.is_active = true → amount ≤ a.balance →
        debit_account db uid amount
          = ((true, "Transaction successful", a.balance - amount),
             updateBalance db uid (a.balance - amount))
        ∧ balanceOf (debit_account db uid amount).2 uid = some (a.balance - amount))
    ∧ ((debit_account db uid amount).1.1 = false → (debit_account db uid amount).2 = db) := by
  refine ⟨⟨?_, ?_⟩, ?_, ?_⟩
  · intro hs
    cases hga : get_account_by_user_id db uid with
    | none => simp [debit_account, hga] at hs
    | some a =>
      cases hact : a.is_active with
      | false => simp [debit_account, hga, hact] at hs
      | true =>
        by_cases hlt : a.balance < amount
        · simp [debit_account, hga, hact, hlt] at hs
        · exact ⟨a, rfl, hact, by omega⟩
  · rintro ⟨a, hga, hact, hle⟩
    have hlt : ¬ a.balance < amount := by omega
    simp [debit_account, hga, hact, hlt]
  · intro a hga hact hle
    have hlt : ¬ a.balance < amount := by omega
    refine ⟨by simp [debit_account, hga, hact, hlt], ?_⟩
    simp [debit_account, hga, hact, hlt, balanceOf, get_updateBalance]
  · intro hf
    cases hga : get_account_by_user_id db uid with
    | none => simp [debit_account, hga]
    | some a =>
      cases hact : a.is_active with
      | false => simp [debit_account, hga, hact]
      | true =>
        by_cases hlt : a.balance < amount
        · simp [debit_account, hga, hact, hlt]
        · simp [debit_account, hga, hact, hlt] at hf

/-- C2 witness: debiting `300.00` from `u1` (balance `1000.00`) succeeds,
returns `700.00` and commits it. -/
theorem debit_account_spec_witness :
    debit_account store1 "u1" 30000
      = ((true, "Transaction successful", 70000), updateBalance store1 "u1" 70000) :=
  ((debit_account_spec store1 "u1" 30000).2.1 acct1 rfl rfl (by decide)).1

/-- C3 counterexample: at balance `700.00` and requested `800.00`,
`check_balance` reports `"Insufficient balance. Available: 700.00, Required:
800.00"`, not the claimed `"Insufficient balance: available=700.00,
required=800.00"`. -/
theorem check_balance_message_cex :
    check_balance store700 "u1" 80000
      = (false, "Insufficient balance. Available: 700.00, Required: 800.00")
    ∧ check_balance store700 "u1" 80000
      ≠ (false, "Insufficient balance: available=700.00, required=800.00") := by
  decide

/-- C3 (amended): `check_balance` checks existence, then activity, then
sufficiency, each short-circuiting, and returns exactly `(false, "Account
not found")`, `(false, "Account is inactive")`, `(false, "Insufficient
balance. Available: <balance>, Required: <amount>")`, or `(true,
"Sufficient balance")`. -/
theorem check_balance_spec (db : List BankAccount) (uid : String) (amount : Int) :
    (get_account_by_user_id db uid = none →
      check_balance db uid amount = (false, "Account not found"))
    ∧ (∀ a, get_account_by_user_id db uid = some a → a.is_active = false →
        check_balance db uid amount = (false, "Account is inactive"))
    ∧ (∀ a, get_account_by_user_id db uid = some a → a.is_active = true →
        a.balance < amount →
        check_balance db uid amount
          = (false, "Insufficient balance. Available: " ++ formatCents a.balance
              ++ ", Required: " ++ formatCents amount))
    ∧ (∀ a, get_account_by_user_id db uid = some a → a.is_active = true →
        amount ≤ a.balance →
        check_balance db uid amount = (true, "Sufficient balance")) := by
  refine ⟨?_, ?_, ?_, ?_⟩
  · intro hga
    simp [check_balance, hga]
  · intro a hga hact
    simp [check_balance, hga, hact]
  · intro a hga hact hlt
    simp [check_balance, hga, hact, hlt]
  · intro a hga hact hle
    have hlt : ¬ a.balance < amount := by omega
    simp [check_balance, hga, hact, hlt]

/-- C3 witness: the insufficiency message at balance `700.00`, amount
`800.00`. -/
theorem check_balance_spec_witness :
    check_balance store700 "u1" 80000
      = (false, "Insufficient balance. Available: " ++ formatCents 70000
          ++ ", Required: " ++ formatCents 80000) :=
  (check_balance_spec store700 "u1" 80000).2.2.1 acct700 rfl rfl (by decide)

/-- C4. Every failed `debit_account` or `credit_account` call returns
`success = false` with balance `0` when the account is missing and the
current stored balance otherwise, and leaves the store unchanged; an
inactive account rejects debit and credit of any amount. -/
theorem failure_frame_spec (db : List BankAccount) (uid : String) (amount : Int) :
    (get_account_by_user_id db uid = none →
        debit_account db uid amount = ((false, "Account not found", 0), db)
      ∧ credit_account db uid amount = ((false, "Account not found", 0), db))
    ∧ (∀ a, get_account_by_user_id db uid = some a → a.is_active = false →
        debit_account db uid amount = ((false, "Account is inactive", a.balance), db)
      ∧ credit_account db uid amount = ((false, "Account is inactive", a.balance), db))
    ∧ (∀ a, get_account_by_user_id db uid = some a → a.is_active = true →
        a.balance < amount →
        (debit_account db uid amount).1.1 = false
      ∧ (debit_account db uid amount).1.2.2 = a.balance
      ∧ (debit_account db uid amount).2 = db)
    ∧ ((debit_account db uid amount).1.1 = false → (debit_account db uid amount).2 = db)
    ∧ ((credit_account db uid amount).1.1 = false → (credit_account db uid amount).2 = db) := by
  refine ⟨?_, ?_, ?_, ?_, ?_⟩
  · intro hga
    exact ⟨by simp [debit_account, hga], by simp [credit_account, hga]⟩
  · intro a hga hact
    exact ⟨by simp [debit_account, hga, hact], by simp [credit_account, hga, hact]⟩
  · intro a hga hact hlt
    refine ⟨?_, ?_, ?_⟩ <;> simp [debit_account, hga, hact, hlt]
  · intro hf
    cases hga : get_account_by_user_id db uid with
    | none => simp [debit_account, hga]
    | some a =>
      cases hact : a.is_active with
      | false => simp [debit_account, hga, hact]
      | true =>
        by_cases hlt : a.balance < amount
        · simp [debit_account, hga, hact, hlt]
        · simp [debit_account, hga, hact, hlt] at hf
  · intro hf
    cases hga : get_account_by_user_id db uid with
    | none => simp [credit_account, hga]
    | some a =>
      cases hact : a.is_active with
      | false => simp [credit_account, hga, hact]
      | true => simp [credit_account, hga, hact] at hf

/-- C4 witness: the inactive account of `u2` rejects a debit and a credit of
`1.00`, reporting its stored balance `50.00` and leaving the store as it
was. -/
theorem failure_frame_spec_witness :
    debit_account store2 "u2" 100 = ((false, "Account is inactive", 5000), store2)
    ∧ credit_account store2 "u2" 100 = ((false, "Account is inactive", 5000), store2) :=
  (failure_frame_spec store2 "u2" 100).2.1 acctInactive rfl rfl

/-- C5. The u1 scenario: create an account with `1000.00`; debit `300.00`
yields `(true, "Transaction successful", 700.00)`; debit `800.00` yields
`(false, "Insufficient balance. Available: 700.00, Required: 800.00",
700.00)` with the balance still `700.00`; credit `50.00` yields `(true,
"Transaction successful", 750.00)`. Amounts in cents. -/
theorem scenario_u1 :
    scenarioCreated.1.balance = 100000 ∧ scenarioCreated.1.is_active = true
    ∧ scenarioR1.1 = (true, "Transaction successful", 70000)
    ∧ scenarioR2.1
        = (false, "Insufficient balance. Available: 700.00, Required: 800.00", 70000)
    ∧ balanceOf scenarioR2.2 "u1" = some 70000
    ∧ scenarioR3.1 = (true, "Transaction successful", 75000) := by
  decide

/-- C6. The missing-serialization race at the failing input: with `u7`
holding `100.00`, two concurrent `debit_account` calls of `60.00` whose
phase-1 reads both precede the commits BOTH succeed and leave `40.00`
(`120.00` reported as debited against a drop of `60.00`), whereas the
serialized execution the claim requires lets exactly one succeed. -/
theorem concurrent_debits_both_succeed :
    twoDebitsInterleaved store100 "u7" 6000 6000
      = (true, true, [{ acct100 with balance := 4000 }])
    ∧ (debit_account store100 "u7" 6000).1.1 = true
    ∧ (debit_account ((debit_account store100 "u7" 6000).2) "u7" 6000).1.1 = false := by
  decide

/-- C7. `create_account` returns and persists an account whose balance is
exactly the requested initial balance (negative values included, no
validation), with `is_active = true`, the freshly generated id, and an
account number of the form `"ACC" ++ suffix`; the `BankAccountCreate`
defaults are `1000.00` and `"USD"`. -/
theorem create_account_spec (db : List BankAccount) (accountId acctSuffix : String)
    (d : BankAccountCreate) :
    (create_account db accountId acctSuffix d).1 =
      { id := accountId, user_id := d.user_id, account_number := "ACC" ++ acctSuffix,
        balance := d.initial_balance, currency := d.currency, is_active := true }
    ∧ (create_account db accountId acctSuffix d).2
        = db ++ [(create_account db accountId acctSuffix d).1]
    ∧ (∀ u : String, ({ user_id := u } : BankAccountCreate).initial_balance = 100000
        ∧ ({ user_id := u } : BankAccountCreate).currency = "USD")
    ∧ (create_account db accountId acctSuffix
        { user_id := d.user_id, initial_balance := -100, currency := d.currency }).1.balance
        = -100 :=
  ⟨rfl, rfl, fun _ => ⟨rfl, rfl⟩, rfl⟩

/-- C8. `get_account_by_user_id` as a unit of work is a pure lookup: the
store after the call is the store before it, and two consecutive calls with
no intervening mutation return the same result. -/
theorem get_account_pure (db : List BankAccount) (uid : String) :
    (get_account_op db uid).2 = db
    ∧ (get_account_op ((get_account_op db uid).2) uid).1 = (get_account_op db uid).1 :=
  ⟨rfl, rfl⟩

/-- C1 counterexample: starting from `u1` with non-negative balance
`1000.00`, the single `credit_account` call of `-2000.00` (accepted, since
`credit_account` never checks the amount) persists the negative balance
`-1000.00`. -/
theorem nonneg_invariant_cex :
    balanceOf store1 "u1" = some 100000 ∧ (0 : Int) ≤ 100000
    ∧ balanceOf (runOps store1 "u1" [Op.credit (-200000)]) "u1" = some (-100000)
    ∧ (-100000 : Int) < 0 := by
  decide

/-- C1 (amended): starting from a non-negative balance, every sequence of
`debit_account` calls (any amounts) and `credit_account` calls of
non-negative amounts keeps the persisted balance non-negative after every
prefix; and any debit whose amount exceeds the balance is rejected and
leaves the store unchanged. -/
theorem nonneg_invariant_of_nonneg_credits (db : List BankAccount) (uid : String)
    (b0 : Int) (hb : balanceOf db uid = some b0) (hb0 : 0 ≤ b0) (ops : List Op)
    (hops : ∀ op ∈ ops, opOK op = true) :
    (∀ l1 l2, ops = l1 ++ l2 → ∀ b ∈ balanceOf (runOps db uid l1) uid, 0 ≤ b)
    ∧ (∀ amount a, get_account_by_user_id db uid = some a → a.balance < amount →
        (debit_account db uid amount).1.1 = false
      ∧ (debit_account db uid amount).2 = db) := by
  constructor
  · intro l1 l2 hsplit
    have h0 : ∀ b ∈ balanceOf db uid, 0 ≤ b := by
      intro b hbmem
      rw [hb] at hbmem
      have hbb : b0 = b := by simpa using hbmem
      omega
    exact runOps_nonneg uid l1 db h0
      (fun op ho => hops op (hsplit ▸ List.mem_append_left l2 ho))
  · intro amount a hga hlt
    cases hact : a.is_active with
    | false =>
      exact ⟨by simp [debit_account, hga, hact], by simp [debit_account, hga, hact]⟩
    | true =>
      exact ⟨by simp [debit_account, hga, hact, hlt],
        by simp [debit_account, hga, hact, hlt]⟩

/-- C1 witness: from `1000.00`, the sequence debit `300.00` then credit
`50.00` ends at the non-negative balance `750.00`. -/
theorem nonneg_invariant_of_nonneg_credits_witness :
    balanceOf (runOps store1 "u1" [Op.debit 30000, Op.credit 5000]) "u1" = some 75000
    ∧ (0 : Int) ≤ 75000 :=
  ⟨by decide,
   (nonneg_invariant_of_nonneg_credits store1 "u1" 100000 rfl (by decide)
      [Op.debit 30000, Op.credit 5000] (by decide)).1
     [Op.debit 30000, Op.credit 5000] [] (by simp) 75000 (by decide)⟩

/-- C9. `credit_account` validates nothing about the amount: on any existing
active account it succeeds for every amount — positive, zero or negative —
committing and returning `balance + amount`; in particular some negative
amount of magnitude above the balance drives the persisted balance
negative. -/
theorem credit_account_no_validation (db : List BankAccount) (uid : String)
    (a : BankAccount) (hga : get_account_by_user_id db uid = some a)
    (hact : a.is_active = true) :
    (∀ amount : Int, credit_account db uid amount
        = ((true, "Transaction successful", a.balance + amount),
           updateBalance db uid (a.balance + amount)))
    ∧ (∃ amount : Int, amount < 0 ∧ a.balance < -amount
        ∧ balanceOf (credit_account db uid amount).2 uid = some (a.balance + amount)
        ∧ a.balance + amount < 0) := by
  constructor
  · intro amount
    simp [credit_account, hga, hact]
  · refine ⟨-((a.balance.natAbs : Int) + 1), by omega, by omega, ?_, by omega⟩
    simp [credit_account, hga, hact, balanceOf, get_updateBalance]

/-- C9 witness: crediting `-2000.00` to `u1` (balance `1000.00`) succeeds
and commits `-1000.00`. -/
theorem credit_account_no_validation_witness :
    credit_account store1 "u1" (-200000)
      = ((true, "Transaction successful", -100000), updateBalance store1 "u1" (-100000)) :=
  (credit_account_no_validation store1 "u1" acct1 rfl rfl).1 (-200000)

/-- C10. `debit_account` never checks the sign of the amount: on an existing
active account with non-negative balance, any amount `≤ 0` passes the
sufficiency test `balance < amount`, so the debit succeeds; a strictly
negative debit amount strictly increases the persisted balance. -/
theorem debit_account_nonpositive_amount (db : List BankAccount) (uid : String)
    (a : BankAccount) (hga : get_account_by_user_id db uid = some a)
    (hact : a.is_active = true) (hb : 0 ≤ a.balance)
    (amount : Int) (hamt : amount ≤ 0) :
    ¬ a.balance < amount
    ∧ debit_account db uid amount
        = ((true, "Transaction successful", a.balance - amount),
           updateBalance db uid (a.balance - amount))
    ∧ (amount < 0 → a.balance < a.balance - amount) := by
  have hlt : ¬ a.balance < amount := by omega
  exact ⟨hlt, by simp [debit_account, hga, hact, hlt], by omega⟩

/-- C10 witness: debiting `-50.00` from `u1` (balance `1000.00`) succeeds
and commits the increased balance `1050.00`. -/
theorem debit_account_nonpositive_amount_witness :
    debit_account store1 "u1" (-5000)
      = ((true, "Transaction successful", 105000), updateBalance store1 "u1" 105000)
    ∧ acct1.balance < acct1.balance - (-5000) :=
  ⟨(debit_account_nonpositive_amount store1 "u1" acct1 rfl rfl (by decide)
      (-5000) (by decide)).2.1,
   (debit_account_nonpositive_amount store1 "u1" acct1 rfl rfl (by decide)
      (-5000) (by decide)).2.2 (by decide)⟩

end Banking
